import Mathlib

/-!
Verification of the cost-estimator notebook `src/tco_cal.ipynb`.

Python numbers are modelled as exact rationals (ℚ); the arithmetic in the
source is plain `*`, `+`, `/` on floats, which we idealise as exact rational
arithmetic, the reading the specification itself takes ("no rounding until
presentation"). The module-level constants the source functions capture
(`days`, the two pricing rates) are passed to the embedded functions as
explicit leading arguments.
-/

namespace TcoCal

/-- Module constant `prompt_cost_per_1k_tokens = 0.03` of the source. -/
def prompt_cost_per_1k_tokens : ℚ := 3 / 100

/-- Module constant `completion_cost_per_1k_tokens = 0.06` of the source. -/
def completion_cost_per_1k_tokens : ℚ := 6 / 100

/-- Module constant `base_daily_requests = 1000` of the source. -/
def base_daily_requests : ℚ := 1000

/-- Module constant `base_prompt_tokens = 300` of the source. -/
def base_prompt_tokens : ℚ := 300

/-- Module constant `base_completion_tokens = 500` of the source. -/
def base_completion_tokens : ℚ := 500

/-- Module constant `days = 30` of the source. -/
def days : ℚ := 30

/-- Shallow embedding of `calculate_token_cost` from `src/tco_cal.ipynb`.
The captured module globals `days`, `prompt_cost_per_1k_tokens` and
`completion_cost_per_1k_tokens` are the first three arguments. The result is
the tuple `(total_cost, prompt_cost, completion_cost)` in the order the source
returns it. -/
def calculate_token_cost (days_g rate_in rate_out daily_requests prompt_tokens completion_tokens : ℚ) :
    ℚ × ℚ × ℚ :=
  let total_prompt_tokens := prompt_tokens * daily_requests * days_g
  let total_completion_tokens := completion_tokens * daily_requests * days_g
  let prompt_cost := (total_prompt_tokens / 1000) * rate_in
  let completion_cost := (total_completion_tokens / 1000) * rate_out
  let total_cost := prompt_cost + completion_cost
  (total_cost, prompt_cost, completion_cost)

/-- C1: for every input with daily requests `r ≥ 0`, prompt tokens `p ≥ 0`,
completion tokens `c ≥ 0`, period `days ≥ 1` and non-negative rates,
`calculate_token_cost` returns exactly the five-step formula of the spec:
input cost `(p*r*days/1000)*rate_in`, output cost `(c*r*days/1000)*rate_out`,
and their sum as the total. -/
theorem computeCost_formula (d ri ro r p c : ℚ)
    (hr : 0 ≤ r) (hp : 0 ≤ p) (hc : 0 ≤ c) (hd : 1 ≤ d)
    (hri : 0 ≤ ri) (hro : 0 ≤ ro) :
    calculate_token_cost d ri ro r p c =
      ((p * r * d / 1000) * ri + (c * r * d / 1000) * ro,
       (p * r * d / 1000) * ri,
       (c * r * d / 1000) * ro) := rfl

/-- Witness for C1 at the reference scenario inputs. -/
theorem computeCost_formula_witness :
    calculate_token_cost 30 (3 / 100) (6 / 100) 1000 300 500 =
      ((300 * 1000 * 30 / 1000) * (3 / 100) + (500 * 1000 * 30 / 1000) * (6 / 100),
       (300 * 1000 * 30 / 1000) * (3 / 100),
       (500 * 1000 * 30 / 1000) * (6 / 100)) :=
  computeCost_formula 30 (3 / 100) (6 / 100) 1000 300 500
    (by norm_num) (by norm_num) (by norm_num) (by norm_num) (by norm_num) (by norm_num)

/-- C10: `calculate_token_cost` is a total function of its (real-valued)
arguments: it performs no validation, the only division is by the constant
1000, and for every triple — negative values included — it returns the same
linear formula; at a negative daily-request count it returns a negative total
cost rather than an error. -/
theorem computeCost_total_no_validation :
    (∀ d ri ro r p c : ℚ,
      calculate_token_cost d ri ro r p c =
        ((p * r * d / 1000) * ri + (c * r * d / 1000) * ro,
         (p * r * d / 1000) * ri,
         (c * r * d / 1000) * ro)) ∧
    (calculate_token_cost 30 (3 / 100) (6 / 100) (-1) 300 500).1 < 0 := by
  constructor
  · intro d ri ro r p c
    rfl
  · norm_num [calculate_token_cost]

/-- The Pricing Schedule of the data model: the pair of per-1000-token rates
(the two module constants of the source). -/
structure PricingSchedule where
  rate_in : ℚ
  rate_out : ℚ
deriving DecidableEq

/-- The Usage Parameters of the data model: daily request count, average
prompt tokens, average completion tokens, and the period length in days (the
source keeps the period in the module constant `days`). -/
structure UsageParams where
  daily_requests : ℚ
  prompt_tokens : ℚ
  completion_tokens : ℚ
  days : ℚ
deriving DecidableEq

/-- The computeCost operation of the spec, packaged over `UsageParams` and
`PricingSchedule`: it invokes the embedded `calculate_token_cost` with the
period and rates of the arguments. -/
def computeCost (params : UsageParams) (schedule : PricingSchedule) : ℚ × ℚ × ℚ :=
  calculate_token_cost params.days schedule.rate_in schedule.rate_out
    params.daily_requests params.prompt_tokens params.completion_tokens

/-- The applyReduction operation: multiply both token counts by the factor,
leaving the request count and the period unchanged. Its `factor = 0.7`
instance is exactly the source lines
`optimized_prompt_tokens = base_prompt_tokens * 0.7` and
`optimized_completion_tokens = base_completion_tokens * 0.7`. -/
def applyReduction (params : UsageParams) (factor : ℚ) : UsageParams :=
  { params with
      prompt_tokens := params.prompt_tokens * factor
      completion_tokens := params.completion_tokens * factor }

/-- Python runtime errors that the embedded expressions can raise. -/
inductive PyError where
  | zeroDivisionError
deriving DecidableEq

/-- Python float division: raises `ZeroDivisionError` when the denominator is
zero, otherwise returns the exact quotient. -/
def pydiv (x y : ℚ) : Except PyError ℚ :=
  if y = 0 then Except.error PyError.zeroDivisionError else Except.ok (x / y)

/-- Shallow embedding of the percentage expression of the Cost Savings print
in the source, `((baseline_cost - optimized_cost) / baseline_cost) * 100`: the
division is performed unconditionally, with Python division semantics. -/
def savings_percentage (baseline_cost optimized_cost : ℚ) : Except PyError ℚ :=
  (pydiv (baseline_cost - optimized_cost) baseline_cost).map (fun q => q * 100)

/-- C2 counterexample: at `daily_requests = -1` (with the reference period and
rates) `calculate_token_cost` does not fail with an InvalidInput error; it
performs no validation at all and returns an ordinary — negative — cost
breakdown. -/
theorem computeCost_no_invalid_input_error :
    calculate_token_cost 30 (3 / 100) (6 / 100) (-1) 300 500 =
      (-117 / 100, -27 / 100, -9 / 10) := by
  norm_num [calculate_token_cost]

/-- C2 amended: `calculate_token_cost` never fails: even when one of the
quantities `r`, `p`, `c` is negative it still returns the cost breakdown given
by the linear formula, instead of an InvalidInput error. -/
theorem computeCost_succeeds_on_negative (d ri ro r p c : ℚ)
    (h : r < 0 ∨ p < 0 ∨ c < 0) :
    calculate_token_cost d ri ro r p c =
      ((p * r * d / 1000) * ri + (c * r * d / 1000) * ro,
       (p * r * d / 1000) * ri,
       (c * r * d / 1000) * ro) := rfl

/-- Witness for the amended C2 at a negative daily-request count. -/
theorem computeCost_succeeds_on_negative_witness :
    calculate_token_cost 30 (3 / 100) (6 / 100) (-1) 300 500 =
      ((300 * (-1) * 30 / 1000) * (3 / 100) + (500 * (-1) * 30 / 1000) * (6 / 100),
       (300 * (-1) * 30 / 1000) * (3 / 100),
       (500 * (-1) * 30 / 1000) * (6 / 100)) :=
  computeCost_succeeds_on_negative 30 (3 / 100) (6 / 100) (-1) 300 500
    (Or.inl (by norm_num))

/-- C3 counterexample: at `baseline_total = 0` the percentage expression of
the source raises an uncaught Python `ZeroDivisionError` — it is not guarded,
and it reports neither a controlled DivisionUndefined error nor NaN. -/
theorem savings_percentage_raises_at_zero :
    savings_percentage 0 0 = Except.error PyError.zeroDivisionError := rfl

/-- C3 amended: the percentage expression is evaluated unconditionally; for
every `baseline_total ≠ 0` it returns `savings / baseline_total * 100`, and at
`baseline_total = 0` the division raises `ZeroDivisionError` (an unhandled
exception) rather than a controlled DivisionUndefined report. -/
theorem savings_percentage_eq (baseline_cost optimized_cost : ℚ)
    (h : baseline_cost ≠ 0) :
    savings_percentage baseline_cost optimized_cost =
      Except.ok ((baseline_cost - optimized_cost) / baseline_cost * 100) := by
  simp [savings_percentage, pydiv, h, Except.map]

/-- Witness for the amended C3 at the reference scenario totals. -/
theorem savings_percentage_eq_witness :
    savings_percentage 1170 819 = Except.ok ((1170 - 819) / 1170 * 100) :=
  savings_percentage_eq 1170 819 (by norm_num)

/-- C5: for every valid input, the breakdown returned by the cost function
satisfies `total_cost = input_cost + output_cost` exactly, and all three
components are non-negative. -/
theorem computeCost_breakdown_invariant (d ri ro r p c : ℚ)
    (hr : 0 ≤ r) (hp : 0 ≤ p) (hc : 0 ≤ c) (hd : 1 ≤ d)
    (hri : 0 ≤ ri) (hro : 0 ≤ ro) :
    (calculate_token_cost d ri ro r p c).1 =
        (calculate_token_cost d ri ro r p c).2.1 +
          (calculate_token_cost d ri ro r p c).2.2 ∧
      0 ≤ (calculate_token_cost d ri ro r p c).2.1 ∧
      0 ≤ (calculate_token_cost d ri ro r p c).2.2 ∧
      0 ≤ (calculate_token_cost d ri ro r p c).1 := by
  have hd0 : (0 : ℚ) ≤ d := le_trans zero_le_one hd
  have h1 : 0 ≤ (p * r * d / 1000) * ri := by positivity
  have h2 : 0 ≤ (c * r * d / 1000) * ro := by positivity
  refine ⟨rfl, h1, h2, ?_⟩
  exact add_nonneg h1 h2

/-- Witness for C5 at the reference scenario inputs. -/
theorem computeCost_breakdown_invariant_witness :
    (calculate_token_cost 30 (3 / 100) (6 / 100) 1000 300 500).1 =
        (calculate_token_cost 30 (3 / 100) (6 / 100) 1000 300 500).2.1 +
          (calculate_token_cost 30 (3 / 100) (6 / 100) 1000 300 500).2.2 ∧
      0 ≤ (calculate_token_cost 30 (3 / 100) (6 / 100) 1000 300 500).2.1 ∧
      0 ≤ (calculate_token_cost 30 (3 / 100) (6 / 100) 1000 300 500).2.2 ∧
      0 ≤ (calculate_token_cost 30 (3 / 100) (6 / 100) 1000 300 500).1 :=
  computeCost_breakdown_invariant 30 (3 / 100) (6 / 100) 1000 300 500
    (by norm_num) (by norm_num) (by norm_num) (by norm_num) (by norm_num) (by norm_num)

/-- C6: for every Usage Parameters value and every factor with
`0 ≤ factor ≤ 1`, applyReduction scales both token counts by the factor and
leaves the daily request count and the period unchanged; at `factor = 1` the
result is identical to the input and at `factor = 0` the token counts and
hence the total cost are zero. -/
theorem applyReduction_spec (params : UsageParams) (factor : ℚ)
    (h0 : 0 ≤ factor) (h1 : factor ≤ 1) :
    (applyReduction params factor).prompt_tokens = params.prompt_tokens * factor ∧
      (applyReduction params factor).completion_tokens =
        params.completion_tokens * factor ∧
      (applyReduction params factor).daily_requests = params.daily_requests ∧
      (applyReduction params factor).days = params.days ∧
      applyReduction params 1 = params ∧
      (applyReduction params 0).prompt_tokens = 0 ∧
      (applyReduction params 0).completion_tokens = 0 ∧
      ∀ schedule : PricingSchedule,
        (computeCost (applyReduction params 0) schedule).1 = 0 := by
  refine ⟨rfl, rfl, rfl, rfl, ?_, mul_zero _, mul_zero _, ?_⟩
  · cases params
    simp [applyReduction]
  · intro schedule
    simp [computeCost, applyReduction, calculate_token_cost]

/-- Witness for C6 at the reference parameters and factor `0.7`. -/
theorem applyReduction_spec_witness :
    (applyReduction ⟨1000, 300, 500, 30⟩ (7 / 10)).prompt_tokens =
        300 * (7 / 10) ∧
      (applyReduction ⟨1000, 300, 500, 30⟩ (7 / 10)).completion_tokens =
        500 * (7 / 10) ∧
      (applyReduction ⟨1000, 300, 500, 30⟩ (7 / 10)).daily_requests = 1000 ∧
      (applyReduction ⟨1000, 300, 500, 30⟩ (7 / 10)).days = 30 ∧
      applyReduction ⟨1000, 300, 500, 30⟩ 1 = ⟨1000, 300, 500, 30⟩ ∧
      (applyReduction ⟨1000, 300, 500, 30⟩ 0).prompt_tokens = 0 ∧
      (applyReduction ⟨1000, 300, 500, 30⟩ 0).completion_tokens = 0 ∧
      ∀ schedule : PricingSchedule,
        (computeCost (applyReduction ⟨1000, 300, 500, 30⟩ 0) schedule).1 = 0 :=
  applyReduction_spec ⟨1000, 300, 500, 30⟩ (7 / 10) (by norm_num) (by norm_num)

/-- C7: the cost function is homogeneous of degree 1 in each parameter
separately: scaling `r` or `days` by `k ≥ 0` scales all three components by
`k`; scaling `p` by `k` scales the input cost by `k` (output cost unchanged);
scaling `c` by `k` scales the output cost by `k` (input cost unchanged); and,
as the `k = 0` instance for `r`, zero daily requests give zero total cost. -/
theorem computeCost_homogeneous (d ri ro r p c k : ℚ) (hk : 0 ≤ k) :
    calculate_token_cost d ri ro (k * r) p c =
        (k * (calculate_token_cost d ri ro r p c).1,
         k * (calculate_token_cost d ri ro r p c).2.1,
         k * (calculate_token_cost d ri ro r p c).2.2) ∧
      calculate_token_cost (k * d) ri ro r p c =
        (k * (calculate_token_cost d ri ro r p c).1,
         k * (calculate_token_cost d ri ro r p c).2.1,
         k * (calculate_token_cost d ri ro r p c).2.2) ∧
      (calculate_token_cost d ri ro r (k * p) c).2.1 =
        k * (calculate_token_cost d ri ro r p c).2.1 ∧
      (calculate_token_cost d ri ro r (k * p) c).2.2 =
        (calculate_token_cost d ri ro r p c).2.2 ∧
      (calculate_token_cost d ri ro r p (k * c)).2.2 =
        k * (calculate_token_cost d ri ro r p c).2.2 ∧
      (calculate_token_cost d ri ro r p (k * c)).2.1 =
        (calculate_token_cost d ri ro r p c).2.1 ∧
      (calculate_token_cost d ri ro 0 p c).1 = 0 := by
  refine ⟨?_, ?_, ?_, rfl, ?_, rfl, ?_⟩ <;>
    simp only [calculate_token_cost, Prod.mk.injEq]
  · exact ⟨by ring, by ring, by ring⟩
  · exact ⟨by ring, by ring, by ring⟩
  · ring
  · ring
  · ring

/-- Witness for C7 at the reference inputs with `k = 2`. -/
theorem computeCost_homogeneous_witness :
    calculate_token_cost 30 (3 / 100) (6 / 100) (2 * 1000) 300 500 =
        (2 * (calculate_token_cost 30 (3 / 100) (6 / 100) 1000 300 500).1,
         2 * (calculate_token_cost 30 (3 / 100) (6 / 100) 1000 300 500).2.1,
         2 * (calculate_token_cost 30 (3 / 100) (6 / 100) 1000 300 500).2.2) ∧
      calculate_token_cost (2 * 30) (3 / 100) (6 / 100) 1000 300 500 =
        (2 * (calculate_token_cost 30 (3 / 100) (6 / 100) 1000 300 500).1,
         2 * (calculate_token_cost 30 (3 / 100) (6 / 100) 1000 300 500).2.1,
         2 * (calculate_token_cost 30 (3 / 100) (6 / 100) 1000 300 500).2.2) ∧
      (calculate_token_cost 30 (3 / 100) (6 / 100) 1000 (2 * 300) 500).2.1 =
        2 * (calculate_token_cost 30 (3 / 100) (6 / 100) 1000 300 500).2.1 ∧
      (calculate_token_cost 30 (3 / 100) (6 / 100) 1000 (2 * 300) 500).2.2 =
        (calculate_token_cost 30 (3 / 100) (6 / 100) 1000 300 500).2.2 ∧
      (calculate_token_cost 30 (3 / 100) (6 / 100) 1000 300 (2 * 500)).2.2 =
        2 * (calculate_token_cost 30 (3 / 100) (6 / 100) 1000 300 500).2.2 ∧
      (calculate_token_cost 30 (3 / 100) (6 / 100) 1000 300 (2 * 500)).2.1 =
        (calculate_token_cost 30 (3 / 100) (6 / 100) 1000 300 500).2.1 ∧
      (calculate_token_cost 30 (3 / 100) (6 / 100) 0 300 500).1 = 0 :=
  computeCost_homogeneous 30 (3 / 100) (6 / 100) 1000 300 500 2 (by norm_num)

/-- C8: the end-to-end reference scenario. With schedule `(0.03, 0.06)` and
parameters `(1000, 300, 500, 30)` the cost function returns input cost 270,
output cost 900, total 1170; after applyReduction with factor 0.7 the token
counts become 210 and 350 and the cost function returns input cost 189,
output cost 630, total 819; the savings are 351 and the percentage savings is
exactly 30 percent. -/
theorem reference_scenario :
    computeCost
        ⟨base_daily_requests, base_prompt_tokens, base_completion_tokens, days⟩
        ⟨prompt_cost_per_1k_tokens, completion_cost_per_1k_tokens⟩ =
      (1170, 270, 900) ∧
    applyReduction
        ⟨base_daily_requests, base_prompt_tokens, base_completion_tokens, days⟩
        (7 / 10) =
      ⟨1000, 210, 350, 30⟩ ∧
    computeCost
        (applyReduction
          ⟨base_daily_requests, base_prompt_tokens, base_completion_tokens, days⟩
          (7 / 10))
        ⟨prompt_cost_per_1k_tokens, completion_cost_per_1k_tokens⟩ =
      (819, 189, 630) ∧
    (1170 : ℚ) - 819 = 351 ∧
    savings_percentage 1170 819 = Except.ok 30 := by
  refine ⟨?_, ?_, ?_, by norm_num, ?_⟩
  · norm_num [computeCost, calculate_token_cost, base_daily_requests,
      base_prompt_tokens, base_completion_tokens, days,
      prompt_cost_per_1k_tokens, completion_cost_per_1k_tokens]
  · norm_num [applyReduction, base_daily_requests, base_prompt_tokens,
      base_completion_tokens, days]
  · norm_num [computeCost, applyReduction, calculate_token_cost,
      base_daily_requests, base_prompt_tokens, base_completion_tokens, days,
      prompt_cost_per_1k_tokens, completion_cost_per_1k_tokens]
  · norm_num [savings_percentage, pydiv, Except.map]

/-- Shallow embedding of the sensitivity-analysis sweep (Step 2 of the
source): three nested loops — daily requests outer, prompt tokens middle,
completion tokens inner — appending for each combination the tuple
`(daily_requests, prompt_tokens, completion_tokens, total_cost)`, where the
total cost is the first component returned by `calculate_token_cost`. -/
def cost_matrix (days_g rate_in rate_out : ℚ)
    (daily_requests_range prompt_tokens_range completion_tokens_range : List ℚ) :
    List (ℚ × ℚ × ℚ × ℚ) :=
  daily_requests_range.flatMap fun daily_requests =>
    prompt_tokens_range.flatMap fun prompt_tokens =>
      completion_tokens_range.map fun completion_tokens =>
        (daily_requests, prompt_tokens, completion_tokens,
          (calculate_token_cost days_g rate_in rate_out daily_requests
            prompt_tokens completion_tokens).1)

/-- Helper: a flatMap whose inner lists all have length `m` has length
`l.length * m`. -/
theorem flatMap_length_uniform {α β : Type} (f : α → List β) (m : ℕ)
    (hm : ∀ a, (f a).length = m) (l : List α) :
    (l.flatMap f).length = l.length * m := by
  induction l with
  | nil => simp
  | cons a t ih =>
    simp only [List.flatMap_cons, List.length_append, hm, ih, List.length_cons]
    ring

/-- Helper: indexing into a flatMap whose inner lists all have length `m`,
at position `i * m + r`, lands at position `r` of the `i`-th inner list. -/
theorem flatMap_getElem_uniform {α β : Type} (f : α → List β) (m : ℕ)
    (hm : ∀ a, (f a).length = m) (l : List α) (i r : ℕ)
    (hi : i < l.length) (hr : r < m) :
    (l.flatMap f)[i * m + r]? = (f (l.get ⟨i, hi⟩))[r]? := by
  induction l generalizing i with
  | nil => simp at hi
  | cons a t ih =>
    cases i with
    | zero =>
      have hra : r < (f a).length := by rw [hm]; exact hr
      simp only [Nat.zero_mul, Nat.zero_add, List.flatMap_cons, List.get]
      exact List.getElem?_append_left hra
    | succ i =>
      have hit : i < t.length := Nat.lt_of_succ_lt_succ hi
      have hle : (f a).length ≤ (i + 1) * m + r := by
        rw [hm]
        calc m ≤ (i + 1) * m := Nat.le_mul_of_pos_left m (Nat.succ_pos i)
          _ ≤ (i + 1) * m + r := Nat.le_add_right _ _
      have harith : (i + 1) * m + r - m = i * m + r := by
        have hsm : (i + 1) * m = i * m + m := by ring
        omega
      rw [List.flatMap_cons, List.getElem?_append_right hle, hm, harith]
      exact ih i hit

/-- C4: over any finite ranges of sizes `a`, `b`, `c`, the sweep produces
exactly `a * b * c` tuples, in row-major order — daily requests outer, prompt
tokens middle, completion tokens inner — and the tuple at flat position
`i * (b * c) + j * c + k` is `(rs[i], ps[j], cs[k], total)` with `total` the
total cost returned by `calculate_token_cost` at that combination. -/
theorem cost_matrix_rowmajor (d ri ro : ℚ) (rs ps cs : List ℚ) :
    (cost_matrix d ri ro rs ps cs).length = rs.length * ps.length * cs.length ∧
    ∀ (i j k : ℕ) (hi : i < rs.length) (hj : j < ps.length) (hk : k < cs.length),
      (cost_matrix d ri ro rs ps cs)[i * (ps.length * cs.length) + j * cs.length + k]? =
        some (rs.get ⟨i, hi⟩, ps.get ⟨j, hj⟩, cs.get ⟨k, hk⟩,
          (calculate_token_cost d ri ro (rs.get ⟨i, hi⟩) (ps.get ⟨j, hj⟩)
            (cs.get ⟨k, hk⟩)).1) := by
  constructor
  · rw [Nat.mul_assoc]
    exact flatMap_length_uniform _ (ps.length * cs.length)
      (fun r => flatMap_length_uniform _ cs.length (fun p => by simp) ps) rs
  · intro i j k hi hj hk
    have hjk : j * cs.length + k < ps.length * cs.length := by
      calc j * cs.length + k < j * cs.length + cs.length := by omega
        _ = (j + 1) * cs.length := by ring
        _ ≤ ps.length * cs.length := Nat.mul_le_mul hj (le_refl _)
    have h1 := flatMap_getElem_uniform
      (fun daily_requests => ps.flatMap fun prompt_tokens =>
        cs.map fun completion_tokens =>
          (daily_requests, prompt_tokens, completion_tokens,
            (calculate_token_cost d ri ro daily_requests prompt_tokens
              completion_tokens).1))
      (ps.length * cs.length)
      (fun r => flatMap_length_uniform _ cs.length (fun p => by simp) ps)
      rs i (j * cs.length + k) hi hjk
    have h2 := flatMap_getElem_uniform
      (fun prompt_tokens => cs.map fun completion_tokens =>
        (rs.get ⟨i, hi⟩, prompt_tokens, completion_tokens,
          (calculate_token_cost d ri ro (rs.get ⟨i, hi⟩) prompt_tokens
            completion_tokens).1))
      cs.length (fun p => by simp) ps j k hj hk
    rw [cost_matrix, Nat.add_assoc, h1]
    simp only at h2 ⊢
    rw [h2, List.getElem?_map]
    rw [List.getElem?_eq_getElem hk]
    simp [List.get_eq_getElem]

/-- Witness for C4: the spec end-to-end scenario 3 sweep of sizes (2, 2, 2)
has 8 rows, and row 7 (i = j = k = 1) is `(1000, 200, 300, 720)`. -/
theorem cost_matrix_rowmajor_witness :
    (cost_matrix 30 (3 / 100) (6 / 100) [500, 1000] [100, 200] [200, 300]).length = 8 ∧
    (cost_matrix 30 (3 / 100) (6 / 100) [500, 1000] [100, 200] [200, 300])[7]? =
      some (1000, 200, 300, 720) := by
  have h := cost_matrix_rowmajor 30 (3 / 100) (6 / 100) [500, 1000] [100, 200] [200, 300]
  refine ⟨by simpa using h.1, ?_⟩
  have h2 := h.2 1 1 1 (by decide) (by decide) (by decide)
  have hidx :
      (1 * ([(100 : ℚ), 200].length * [(200 : ℚ), 300].length) +
        1 * [(200 : ℚ), 300].length + 1 : ℕ) = 7 := by decide
  rw [hidx] at h2
  rw [h2]
  norm_num [calculate_token_cost, List.get]

/-- C9: whenever at least one of the three input ranges is empty, the sweep
returns the empty result sequence (and, being a total function, does not
fail). -/
theorem cost_matrix_empty (d ri ro : ℚ) (rs ps cs : List ℚ)
    (h : rs = [] ∨ ps = [] ∨ cs = []) :
    cost_matrix d ri ro rs ps cs = [] := by
  rcases h with h | h | h <;> subst h <;> simp [cost_matrix]

/-- Witness for C9 with an empty middle range. -/
theorem cost_matrix_empty_witness :
    cost_matrix 30 (3 / 100) (6 / 100) [500, 1000] [] [200, 300] = [] :=
  cost_matrix_empty 30 (3 / 100) (6 / 100) [500, 1000] [] [200, 300]
    (Or.inr (Or.inl rfl))

end TcoCal
